import Mathlib

/-!
Shallow embedding of the booking core of `app.py` (Flask sports-room booking
app): the `book_game` POST handler, the `Booking` table schema, and the
`db_retry_operation` helper, together with theorems checking the
specification's claims about them.
-/

namespace Sport

/-- The `games` table row (`Game` model, app.py lines 65-71). -/
structure Game where
  id : Nat
  name : String
  max_players : Nat
  duration_minutes : Nat
deriving Repr, DecidableEq

/-- The `booking` table row (`Booking` model, app.py lines 73-81): columns
`id` (integer primary key), `user_id` (FK to profiles, not null), `game_id`
(FK to games, not null), `booking_time` (timestamptz, not null; stored as
minutes since the proleptic-Gregorian epoch, UTC), `created_at`.  The model
declares no uniqueness constraint other than the primary key. -/
structure Booking where
  id : Nat
  user_id : String
  game_id : Nat
  booking_time : Int
  created_at : Int
deriving Repr, DecidableEq

/-- A civil (wall-clock) calendar date, as parsed from the form. -/
structure Date where
  year : Nat
  month : Nat
  day : Nat
deriving Repr, DecidableEq

/-- A civil time of day, as parsed from the form. -/
structure Time where
  hour : Nat
  minute : Nat
deriving Repr, DecidableEq

/-- Gregorian leap-year test, as in CPython's `datetime` module. -/
def isLeap (y : Nat) : Bool :=
  y % 4 == 0 && (y % 100 != 0 || y % 400 == 0)

/-- Days in a month, as in CPython's `datetime` module. -/
def daysInMonth (y m : Nat) : Nat :=
  if m == 2 then (if isLeap y then 29 else 28)
  else if m == 4 || m == 6 || m == 9 || m == 11 then 30
  else 31

/-- Days in all years strictly before year `y` (CPython `_days_before_year`). -/
def daysBeforeYear (y : Nat) : Nat :=
  365 * (y - 1) + (y - 1) / 4 - (y - 1) / 100 + (y - 1) / 400

/-- Days in year `y` strictly before month `m` (CPython `_days_before_month`). -/
def daysBeforeMonth (y m : Nat) : Nat :=
  (List.range (m - 1)).foldl (fun acc i => acc + daysInMonth y (i + 1)) 0

/-- Proleptic-Gregorian ordinal of a date, as `date.toordinal()` in Python
(0001-01-01 has ordinal 1). -/
def toordinal (d : Date) : Nat :=
  daysBeforeYear d.year + daysBeforeMonth d.year d.month + d.day

/-- Day of week as `date.weekday()` in Python: Monday = 0 .. Sunday = 6. -/
def weekday (d : Date) : Nat :=
  (toordinal d + 6) % 7

/-- Split a character list at every occurrence of `sep` (the list analogue
of Python's `str.split` on a single separator, as `strptime` field
separation behaves for these formats). -/
def splitOnChar (sep : Char) : List Char → List (List Char)
  | [] => [[]]
  | c :: rest =>
    match splitOnChar sep rest with
    | [] => [[c]]
    | cur :: parts =>
      if c = sep then [] :: cur :: parts else (c :: cur) :: parts

/-- Numeric value of a decimal digit string, accumulator style. -/
def digitsToNat : List Char → Nat → Nat
  | [], acc => acc
  | c :: cs, acc => digitsToNat cs (acc * 10 + (c.toNat - 48))

/-- True when the field is nonempty, all digits, and at most `maxLen` long;
then gives its numeric value.  Mirrors a 1-to-`maxLen`-digit field of
`strptime`. -/
def digitField (cs : List Char) (maxLen : Nat) : Option Nat :=
  if 1 ≤ cs.length ∧ cs.length ≤ maxLen ∧ cs.all (fun c => c.isDigit) then
    some (digitsToNat cs 0)
  else none

/-- Parse of `datetime.strptime(s, str1).date()` where str1 is the
year-month-day format used at app.py line 173: a 4-digit year, a 1-2 digit
month in 1..12 and a 1-2 digit day valid for that month, separated by
hyphens, with the calendar-validity check done by the `date` constructor. -/
def parseDate (s : String) : Option Date :=
  match splitOnChar '-' s.data with
  | [ys, ms, ds] =>
    match digitField ys 4, digitField ms 2, digitField ds 2 with
    | some y, some m, some d =>
      if ys.length = 4 ∧ 1 ≤ y ∧ 1 ≤ m ∧ m ≤ 12 ∧ 1 ≤ d ∧ d ≤ daysInMonth y m then
        some ⟨y, m, d⟩
      else none
    | _, _, _ => none
  | _ => none

/-- Parse of `datetime.strptime(s, str2).time()` where str2 is the
hour-minute format used at app.py line 174: a 1-2 digit hour in 0..23 and a
1-2 digit minute in 0..59 separated by a colon. -/
def parseTime (s : String) : Option Time :=
  match splitOnChar ':' s.data with
  | [hs, ms] =>
    match digitField hs 2, digitField ms 2 with
    | some h, some m =>
      if h ≤ 23 ∧ m ≤ 59 then some ⟨h, m⟩ else none
    | _, _ => none
  | _ => none

/-- The fixed regional zone of app.py lines 109 and 187:
`timezone(timedelta(hours=5, minutes=30))`, i.e. UTC+05:30, as minutes. -/
def istOffsetMinutes : Int := 330

/-- Conversion of app.py lines 187-190: interpret the civil (date, time) in
the fixed UTC+05:30 zone and convert to an absolute UTC instant, counted in
minutes since the proleptic-Gregorian epoch. -/
def utcInstant (d : Date) (t : Time) : Int :=
  (toordinal d : Int) * 1440 + (t.hour : Int) * 60 + (t.minute : Int) - istOffsetMinutes

/-- The per-weekday slot table of app.py lines 177-181: weekday values 0-3
(Monday-Thursday) permit 16:00 and 16:30; value 4 (Friday) permits 14:00,
14:30, 15:00, 15:30, 16:00, 16:30; values 5 and 6 permit nothing. -/
def validSlots (w : Nat) : List Time :=
  if w ≤ 3 then [⟨16, 0⟩, ⟨16, 30⟩]
  else if w = 4 then [⟨14, 0⟩, ⟨14, 30⟩, ⟨15, 0⟩, ⟨15, 30⟩, ⟨16, 0⟩, ⟨16, 30⟩]
  else []

/-- Outcome of a POST to `book_game`, one constructor per exit path of
app.py lines 163-208: the `get_or_404` abort, the missing-field flash, the
uncaught `strptime` ValueError, the invalid-slot flash, the past-slot flash,
the already-booked flash, and the success redirect. -/
inductive BookResult
  | resourceNotFound
  | missingFields
  | parseFailure
  | invalidSlot
  | pastSlot
  | slotTaken
  | success
deriving Repr, DecidableEq

/-- Observable side effects of the handler, in order: the database commit of
app.py line 203 and the confirmation-email attempt of line 205 (whose Bool
records whether SMTP delivery succeeded). -/
inductive Event
  | commit
  | emailAttempt (ok : Bool)
deriving Repr, DecidableEq

/-- Fresh autoincrement primary key for an insert into the booking table. -/
def freshId (bs : List Booking) : Nat :=
  bs.foldl (fun m b => max m b.id) 0 + 1

/-- Result record of one POST to `book_game`: the user-visible outcome, the
booking table after the request, and the emitted events. -/
structure BookOutcome where
  result : BookResult
  bookings : List Booking
  events : List Event
deriving Repr, DecidableEq

/-- The POST branch of `book_game` (app.py lines 161-208).  Inputs: the
`games` table, the `booking` table, the authenticated user, the URL's
`game_id`, the raw `booking_date`/`booking_time` form fields (absent fields
are `none`), the current absolute time `now` (minutes, UTC), and whether the
SMTP send would succeed.  Mirrors the handler's checks in source order:
`get_or_404`, the missing-field guard, `strptime` parsing, the weekday slot
table, the past-instant guard, the duplicate query, then insert + commit +
email. -/
def bookGame (games : List Game) (bookings : List Booking) (userId : String)
    (gameId : Nat) (dateField timeField : Option String) (now : Int)
    (emailOk : Bool) : BookOutcome :=
  if games.find? (fun g => g.id == gameId) = none then
    ⟨.resourceNotFound, bookings, []⟩
  else if dateField.getD "" = "" ∨ timeField.getD "" = "" then
    ⟨.missingFields, bookings, []⟩
  else
    match parseDate (dateField.getD ""), parseTime (timeField.getD "") with
    | some d, some t =>
      if t ∉ validSlots (weekday d) then
        ⟨.invalidSlot, bookings, []⟩
      else if utcInstant d t < now then
        ⟨.pastSlot, bookings, []⟩
      else if bookings.find?
          (fun b => b.game_id == gameId && b.booking_time == utcInstant d t) ≠ none then
        ⟨.slotTaken, bookings, []⟩
      else
        ⟨.success,
          ⟨freshId bookings, userId, gameId, utcInstant d t, now⟩ :: bookings,
          [.commit, .emailAttempt emailOk]⟩
    | _, _ => ⟨.parseFailure, bookings, []⟩

/-- True when no two rows of the booking table have the same primary key. -/
def distinctIds : List Booking → Bool
  | [] => true
  | b :: rest => !(rest.any (fun q => q.id == b.id)) && distinctIds rest

/-- The set of booking-table states the storage layer accepts, read off the
`Booking` model (app.py lines 73-81): every column is non-null (built into
the record type), `id` is the unique primary key, `user_id` references a row
of `profiles`, and `game_id` references a row of `games`.  The model
declares no other constraint: in particular no uniqueness over
`(game_id, booking_time)`. -/
def bookingTableAccepts (profiles : List String) (games : List Game)
    (bs : List Booking) : Bool :=
  distinctIds bs &&
    bs.all (fun b => profiles.contains b.user_id && games.any (fun g => g.id == b.game_id))

/-- No two rows reserve the same `(game_id, booking_time)` pair. -/
def noDupSlots (bs : List Booking) : Prop :=
  List.Pairwise (fun a b => ¬(a.game_id = b.game_id ∧ a.booking_time = b.booking_time)) bs

/-- Number of bookings held by `userId` whose start instant falls inside the
civil day `d` of the fixed UTC+05:30 zone (the day's UTC window starts 330
minutes before midnight UTC of that ordinal). -/
def userCountOnDay (bs : List Booking) (userId : String) (d : Date) : Nat :=
  (bs.filter (fun b => b.user_id == userId &&
    (toordinal d : Int) * 1440 - istOffsetMinutes ≤ b.booking_time &&
    b.booking_time < (toordinal d : Int) * 1440 - istOffsetMinutes + 1440)).length

/-- The spec's priority-slot table (spec section 4.1): Wednesday 16:00,
Friday 15:00, Friday 16:30.  The source defines no such table; this
definition exists only to state the spec's claim about those slots. -/
def specPrioritySlot (w : Nat) (t : Time) : Bool :=
  (w == 2 && t == ⟨16, 0⟩) || (w == 4 && (t == ⟨15, 0⟩ || t == ⟨16, 30⟩))

/-- Errors of `db_retry_operation` (app.py lines 227-245): `operational` is
SQLAlchemy's `OperationalError` (transient connectivity failure), the only
class the `except` clause catches; `integrity` stands for every other
database error, such as the `IntegrityError` a uniqueness violation raises,
which the function does not catch. -/
inductive DbErr
  | operational
  | integrity
deriving Repr, DecidableEq

/-- Recursion of `db_retry_operation`'s `for attempt in range(max_retries)`
loop (app.py lines 232-245).  `op k` is the behaviour of `operation()` on
attempt `k`.  Returns the final result (`ok none` models falling off the
loop, which returns Python's None) together with the list of back-off sleep
durations `2 ** attempt` executed along the way. -/
def dbRetryAux (op : Nat → Except DbErr α) :
    Nat → Nat → Except DbErr (Option α) × List Nat
  | _, 0 => (.ok none, [])
  | attempt, remaining + 1 =>
    match op attempt with
    | .ok a => (.ok (some a), [])
    | .error .operational =>
      if remaining = 0 then (.error .operational, [])
      else
        let rest := dbRetryAux op (attempt + 1) remaining
        (rest.1, 2 ^ attempt :: rest.2)
    | .error e => (.error e, [])

/-- `db_retry_operation(operation, max_retries)` of app.py lines 227-245. -/
def dbRetryOperation (op : Nat → Except DbErr α) (maxRetries : Nat) :
    Except DbErr (Option α) × List Nat :=
  dbRetryAux op 0 maxRetries

/-- Modelled from the spec: reservation status (spec section 3).  The source
under src/ stores no status column; the `Booking` model has none. -/
inductive ResStatus
  | confirmed
  | cancelled
deriving Repr, DecidableEq

/-- Modelled from the spec: a Ledger reservation row (spec section 3), with
the `status ∈ Confirmed, Cancelled` field the source lacks. -/
structure Reservation where
  id : Nat
  resource_id : Nat
  user_id : String
  start_instant : Int
  status : ResStatus
deriving Repr, DecidableEq

/-- Modelled from the spec: the actor of a cancel call — an authenticated
user identity, possibly holding administrative capability (spec 4.2). -/
structure Actor where
  id : String
  admin : Bool
deriving Repr, DecidableEq

/-- Modelled from the spec: failure outcomes of `Ledger.cancel` (spec 4.2
and section 7). -/
inductive CancelErr
  | forbidden
  | pastBooking
  | missingReservation
deriving Repr, DecidableEq

/-- Modelled from the spec: `cancel(reservation_id, actor)` (spec 4.2),
an operation absent from src/.  Fails with Forbidden unless the actor is the
owning user or holds administrative capability; fails with PastBooking if
the start instant is already earlier than now; otherwise transitions the row
to Cancelled (re-cancel of a Cancelled row is a silent success). -/
def ledgerCancel (ledger : List Reservation) (rid : Nat) (actor : Actor)
    (now : Int) : Except CancelErr (List Reservation) :=
  match ledger.find? (fun r => r.id == rid) with
  | none => .error .missingReservation
  | some r =>
    if ¬(actor.id = r.user_id ∨ actor.admin = true) then .error .forbidden
    else if r.start_instant < now then .error .pastBooking
    else .ok (ledger.map (fun q =>
      if q.id = rid then ⟨q.id, q.resource_id, q.user_id, q.start_instant, .cancelled⟩
      else q))

/-- Modelled from the spec: `create(resource_id, user_id, start_instant)`
(spec 4.2), failing with ConflictError (modelled as `none`) when a Confirmed
row for the same resource and instant already exists, else inserting a
Confirmed row. -/
def ledgerCreate (ledger : List Reservation) (resourceId : Nat)
    (userId : String) (instant : Int) : Option (List Reservation) :=
  if ledger.any (fun r =>
      r.resource_id == resourceId && r.start_instant == instant &&
        r.status == ResStatus.confirmed) then
    none
  else
    some (⟨(ledger.map (fun r => r.id)).foldl max 0 + 1,
      resourceId, userId, instant, .confirmed⟩ :: ledger)

/-- Unfolding of `bookGame` once the resource exists and both fields are
present and parse: only the slot-table, past-instant and conflict checks
remain. -/
theorem bookGame_parsed {games : List Game} {bookings : List Booking}
    {userId : String} {gameId : Nat} {dateField timeField : Option String}
    {now : Int} {emailOk : Bool} {g0 : Game} {ds ts : String} {d : Date} {t : Time}
    (hg : games.find? (fun g => g.id == gameId) = some g0)
    (hdf : dateField = some ds) (htf : timeField = some ts)
    (hds : ds ≠ "") (hts : ts ≠ "")
    (hpd : parseDate ds = some d) (hpt : parseTime ts = some t) :
    bookGame games bookings userId gameId dateField timeField now emailOk =
      (if t ∉ validSlots (weekday d) then ⟨.invalidSlot, bookings, []⟩
       else if utcInstant d t < now then ⟨.pastSlot, bookings, []⟩
       else if bookings.find?
           (fun b => b.game_id == gameId && b.booking_time == utcInstant d t) ≠ none then
         ⟨.slotTaken, bookings, []⟩
       else
         ⟨.success,
           ⟨freshId bookings, userId, gameId, utcInstant d t, now⟩ :: bookings,
           [.commit, .emailAttempt emailOk]⟩) := by
  subst hdf htf
  simp only [bookGame, hg, Option.getD_some, hpd, hpt]
  rw [if_neg (by simp), if_neg (by simp [hds, hts])]

/-- C2: for every requested (civil date, time), weekday values 0-3 permit
exactly 16:00 and 16:30, value 4 permits exactly 14:00, 14:30, 15:00, 15:30,
16:00, 16:30, values 5 and 6 permit nothing, and a parsed request whose time
is not in the day's permitted set is rejected with the invalid-slot outcome,
leaving the store unchanged. -/
theorem C2_slot_table_and_invalid_slot :
    (∀ w : Nat, w ≤ 3 → validSlots w = [⟨16, 0⟩, ⟨16, 30⟩]) ∧
    validSlots 4 = [⟨14, 0⟩, ⟨14, 30⟩, ⟨15, 0⟩, ⟨15, 30⟩, ⟨16, 0⟩, ⟨16, 30⟩] ∧
    validSlots 5 = [] ∧ validSlots 6 = [] ∧
    (∀ (games : List Game) (bookings : List Booking) (userId : String)
        (gameId : Nat) (dateField timeField : Option String) (now : Int)
        (emailOk : Bool) (g0 : Game) (ds ts : String) (d : Date) (t : Time),
      games.find? (fun g => g.id == gameId) = some g0 →
      dateField = some ds → timeField = some ts → ds ≠ "" → ts ≠ "" →
      parseDate ds = some d → parseTime ts = some t →
      t ∉ validSlots (weekday d) →
      bookGame games bookings userId gameId dateField timeField now emailOk =
        ⟨.invalidSlot, bookings, []⟩) := by
  refine ⟨?_, rfl, rfl, rfl, ?_⟩
  · intro w hw
    interval_cases w <;> rfl
  · intro games bookings userId gameId dateField timeField now emailOk g0 ds ts d t
      hg hdf htf hds hts hpd hpt hnot
    rw [bookGame_parsed hg hdf htf hds hts hpd hpt, if_pos hnot]

/-- Witness for C2: booking Basketball for Sunday 2026-10-18 at 16:00 (a
day with no permitted slots) is rejected as an invalid slot. -/
theorem C2_witness :
    bookGame [⟨1, "Basketball", 10, 60⟩] [] "u2w" 1
      (some "2026-10-18") (some "16:00") 0 true = ⟨.invalidSlot, [], []⟩ :=
  C2_slot_table_and_invalid_slot.2.2.2.2 [⟨1, "Basketball", 10, 60⟩] [] "u2w" 1
    (some "2026-10-18") (some "16:00") 0 true ⟨1, "Basketball", 10, 60⟩
    "2026-10-18" "16:00" ⟨2026, 10, 18⟩ ⟨16, 0⟩
    rfl rfl rfl (by decide) (by decide) (by decide) (by decide) (by decide)

/-- C10: when the resource exists but the date field or the time field is
absent or empty, the request is rejected with the missing-fields outcome
before any policy check, and the booking table is unchanged. -/
theorem C10_missing_fields (games : List Game) (bookings : List Booking)
    (userId : String) (gameId : Nat) (dateField timeField : Option String)
    (now : Int) (emailOk : Bool) (g0 : Game)
    (hg : games.find? (fun g => g.id == gameId) = some g0)
    (hmiss : dateField = none ∨ dateField = some "" ∨
      timeField = none ∨ timeField = some "") :
    bookGame games bookings userId gameId dateField timeField now emailOk =
      ⟨.missingFields, bookings, []⟩ := by
  have hcond : dateField.getD "" = "" ∨ timeField.getD "" = "" := by
    rcases hmiss with h | h | h | h <;> subst h <;> simp
  simp only [bookGame, hg]
  rw [if_neg (by simp), if_pos hcond]

/-- Witness for C10: a submission with the time field absent is rejected
with the missing-fields outcome and writes nothing. -/
theorem C10_witness :
    bookGame [⟨2, "Tennis", 4, 90⟩] [] "u10w" 2
      (some "2026-10-16") none 0 true = ⟨.missingFields, [], []⟩ :=
  C10_missing_fields [⟨2, "Tennis", 4, 90⟩] [] "u10w" 2
    (some "2026-10-16") none 0 true ⟨2, "Tennis", 4, 90⟩ rfl
    (Or.inr (Or.inr (Or.inl rfl)))

/-- C1 counterexample: the storage layer does not enforce uniqueness of
`(game_id, booking_time)`.  A booking table holding two distinct rows for
the identical game and instant satisfies every constraint the `Booking`
model declares (primary keys distinct, foreign keys valid, columns
non-null), so the storage layer accepts a duplicate-reservation state. -/
theorem C1_counterexample :
    bookingTableAccepts ["u1", "u2"] [⟨1, "Basketball", 10, 60⟩]
      [⟨1, "u1", 1, 1065463710, 0⟩, ⟨2, "u2", 1, 1065463710, 0⟩] = true ∧
    ¬ noDupSlots [⟨1, "u1", 1, 1065463710, 0⟩, ⟨2, "u2", 1, 1065463710, 0⟩] := by
  constructor
  · decide
  · intro h
    exact (List.pairwise_cons.mp h).1 ⟨2, "u2", 1, 1065463710, 0⟩ (by decide) ⟨rfl, rfl⟩

/-- C1 amended: slot uniqueness is enforced only at the application layer,
by the pre-insert query of app.py line 196.  A request whose (game, instant)
already has a row receives the slot-taken outcome and writes nothing, and in
sequential execution `book_game` preserves the no-duplicate-slot invariant;
the schema itself accepts duplicates (see the counterexample). -/
theorem C1_app_level_uniqueness :
    (∀ (games : List Game) (bookings : List Booking) (userId : String)
        (gameId : Nat) (dateField timeField : Option String) (now : Int)
        (emailOk : Bool) (g0 : Game) (ds ts : String) (d : Date) (t : Time)
        (b : Booking),
      games.find? (fun g => g.id == gameId) = some g0 →
      dateField = some ds → timeField = some ts → ds ≠ "" → ts ≠ "" →
      parseDate ds = some d → parseTime ts = some t →
      t ∈ validSlots (weekday d) → ¬(utcInstant d t < now) →
      bookings.find?
        (fun q => q.game_id == gameId && q.booking_time == utcInstant d t) = some b →
      bookGame games bookings userId gameId dateField timeField now emailOk =
        ⟨.slotTaken, bookings, []⟩) ∧
    (∀ (games : List Game) (bookings : List Booking) (userId : String)
        (gameId : Nat) (dateField timeField : Option String) (now : Int)
        (emailOk : Bool),
      noDupSlots bookings →
      noDupSlots
        (bookGame games bookings userId gameId dateField timeField now emailOk).bookings) := by
  constructor
  · intro games bookings userId gameId dateField timeField now emailOk g0 ds ts d t b
      hg hdf htf hds hts hpd hpt hmem hpast hfind
    rw [bookGame_parsed hg hdf htf hds hts hpd hpt, if_neg (not_not_intro hmem),
      if_neg hpast, if_pos (by simp [hfind])]
  · intro games bookings userId gameId dateField timeField now emailOk h
    unfold bookGame
    repeat' split
    any_goals exact h
    rename_i hfind
    rw [noDupSlots, List.pairwise_cons]
    refine ⟨?_, h⟩
    intro b hb hcontra
    have hnp := List.find?_eq_none.mp (not_not.mp hfind) b hb
    simp only [Bool.and_eq_true, beq_iff_eq, not_and] at hnp
    exact hnp hcontra.1.symm hcontra.2.symm

/-- Witness for C1: with Basketball already booked for Friday 2026-10-16
14:00 IST, a second request for the same slot receives the slot-taken
outcome and the table is unchanged. -/
theorem C1_witness :
    bookGame [⟨1, "Basketball", 10, 60⟩] [⟨1, "w1", 1, 1065463710, 0⟩] "w2" 1
      (some "2026-10-16") (some "14:00") 0 true =
      ⟨.slotTaken, [⟨1, "w1", 1, 1065463710, 0⟩], []⟩ :=
  C1_app_level_uniqueness.1 [⟨1, "Basketball", 10, 60⟩] [⟨1, "w1", 1, 1065463710, 0⟩]
    "w2" 1 (some "2026-10-16") (some "14:00") 0 true ⟨1, "Basketball", 10, 60⟩
    "2026-10-16" "14:00" ⟨2026, 10, 16⟩ ⟨14, 0⟩ ⟨1, "w1", 1, 1065463710, 0⟩
    rfl rfl rfl (by decide) (by decide) (by decide) (by decide) (by decide)
    (by decide) (by decide)

/-- C3 counterexample: no daily cap exists.  User "u" already holds two
bookings on civil date 2026-10-16 (Friday 14:00 and 14:30 IST), yet a third
request on the same date (15:00) succeeds and writes a third row, instead of
being rejected with a daily-cap outcome. -/
theorem C3_counterexample :
    userCountOnDay [⟨1, "u", 1, 1065463710, 0⟩, ⟨2, "u", 1, 1065463740, 0⟩]
      "u" ⟨2026, 10, 16⟩ = 2 ∧
    bookGame [⟨1, "Basketball", 10, 60⟩]
      [⟨1, "u", 1, 1065463710, 0⟩, ⟨2, "u", 1, 1065463740, 0⟩] "u" 1
      (some "2026-10-16") (some "15:00") 0 true =
      ⟨.success,
        [⟨3, "u", 1, 1065463770, 0⟩, ⟨1, "u", 1, 1065463710, 0⟩,
          ⟨2, "u", 1, 1065463740, 0⟩],
        [.commit, .emailAttempt true]⟩ := by
  decide

/-- C3 amended: `book_game` enforces no per-user daily cap.  Whenever the
requested slot is permitted, not in the past and not already booked, the
request succeeds and writes a row, regardless of how many bookings the
requesting user already holds on that civil date (the store is universally
quantified, so in particular it may hold two or more same-day bookings by
the same user); no daily-cap outcome exists in the handler. -/
theorem C3_no_daily_cap (games : List Game) (bookings : List Booking)
    (userId : String) (gameId : Nat) (dateField timeField : Option String)
    (now : Int) (emailOk : Bool) (g0 : Game) (ds ts : String) (d : Date) (t : Time)
    (hg : games.find? (fun g => g.id == gameId) = some g0)
    (hdf : dateField = some ds) (htf : timeField = some ts)
    (hds : ds ≠ "") (hts : ts ≠ "")
    (hpd : parseDate ds = some d) (hpt : parseTime ts = some t)
    (hmem : t ∈ validSlots (weekday d)) (hpast : ¬(utcInstant d t < now))
    (hfree : bookings.find?
      (fun q => q.game_id == gameId && q.booking_time == utcInstant d t) = none) :
    bookGame games bookings userId gameId dateField timeField now emailOk =
      ⟨.success,
        ⟨freshId bookings, userId, gameId, utcInstant d t, now⟩ :: bookings,
        [.commit, .emailAttempt emailOk]⟩ := by
  rw [bookGame_parsed hg hdf htf hds hts hpd hpt, if_neg (not_not_intro hmem),
    if_neg hpast, if_neg (not_not_intro hfree)]

/-- Witness for C3: user "v" holds two bookings on Friday 2026-10-16 and a
third on the same date still succeeds. -/
theorem C3_witness :
    bookGame [⟨1, "Basketball", 10, 60⟩]
      [⟨1, "v", 1, 1065463710, 7⟩, ⟨2, "v", 1, 1065463740, 7⟩] "v" 1
      (some "2026-10-16") (some "16:00") 7 true =
      ⟨.success,
        [⟨3, "v", 1, 1065463830, 7⟩, ⟨1, "v", 1, 1065463710, 7⟩,
          ⟨2, "v", 1, 1065463740, 7⟩],
        [.commit, .emailAttempt true]⟩ :=
  C3_no_daily_cap [⟨1, "Basketball", 10, 60⟩]
    [⟨1, "v", 1, 1065463710, 7⟩, ⟨2, "v", 1, 1065463740, 7⟩] "v" 1
    (some "2026-10-16") (some "16:00") 7 true ⟨1, "Basketball", 10, 60⟩
    "2026-10-16" "16:00" ⟨2026, 10, 16⟩ ⟨16, 0⟩
    rfl rfl rfl (by decide) (by decide) (by decide) (by decide) (by decide)
    (by decide) (by decide)

/-- C4 counterexample: no priority-slot rule exists.  Wednesday 2026-10-14
16:00 is a priority slot per the spec's table, and user "u" already holds a
reservation, yet the request succeeds instead of being rejected with a
priority-reserved outcome. -/
theorem C4_counterexample :
    specPrioritySlot (weekday ⟨2026, 10, 14⟩) ⟨16, 0⟩ = true ∧
    [(⟨1, "u", 1, 1065463710, 0⟩ : Booking)].any (fun b => b.user_id == "u") = true ∧
    bookGame [⟨1, "Basketball", 10, 60⟩] [⟨1, "u", 1, 1065463710, 0⟩] "u" 1
      (some "2026-10-14") (some "16:00") 0 true =
      ⟨.success,
        [⟨2, "u", 1, 1065460950, 0⟩, ⟨1, "u", 1, 1065463710, 0⟩],
        [.commit, .emailAttempt true]⟩ := by
  decide

/-- C4 amended: `book_game` has no priority-slot restriction.  A user who
already holds reservations may book any slot of the spec's priority table
(Wednesday 16:00, Friday 15:00, Friday 16:30) exactly like any other slot:
whenever it is permitted for the weekday, not past and unbooked, the request
succeeds; no priority-reserved outcome exists in the handler. -/
theorem C4_no_priority_rule (games : List Game) (bookings : List Booking)
    (userId : String) (gameId : Nat) (dateField timeField : Option String)
    (now : Int) (emailOk : Bool) (g0 : Game) (ds ts : String) (d : Date) (t : Time)
    (hg : games.find? (fun g => g.id == gameId) = some g0)
    (hdf : dateField = some ds) (htf : timeField = some ts)
    (hds : ds ≠ "") (hts : ts ≠ "")
    (hpd : parseDate ds = some d) (hpt : parseTime ts = some t)
    (_hprio : specPrioritySlot (weekday d) t = true)
    (_huser : bookings.any (fun b => b.user_id == userId) = true)
    (hmem : t ∈ validSlots (weekday d)) (hpast : ¬(utcInstant d t < now))
    (hfree : bookings.find?
      (fun q => q.game_id == gameId && q.booking_time == utcInstant d t) = none) :
    (bookGame games bookings userId gameId dateField timeField now emailOk).result =
      .success := by
  rw [bookGame_parsed hg hdf htf hds hts hpd hpt, if_neg (not_not_intro hmem),
    if_neg hpast, if_neg (not_not_intro hfree)]

/-- Witness for C4: user "w" holds one reservation and still books the
Friday 16:30 priority slot successfully. -/
theorem C4_witness :
    (bookGame [⟨1, "Basketball", 10, 60⟩] [⟨1, "w", 1, 1065463710, 3⟩] "w" 1
      (some "2026-10-16") (some "16:30") 3 true).result = .success :=
  C4_no_priority_rule [⟨1, "Basketball", 10, 60⟩] [⟨1, "w", 1, 1065463710, 3⟩]
    "w" 1 (some "2026-10-16") (some "16:30") 3 true ⟨1, "Basketball", 10, 60⟩
    "2026-10-16" "16:30" ⟨2026, 10, 16⟩ ⟨16, 30⟩
    rfl rfl rfl (by decide) (by decide) (by decide) (by decide) (by decide)
    (by decide) (by decide) (by decide) (by decide)

/-- C6 counterexample: an instant exactly equal to the current time is NOT
rejected.  Friday 2026-10-16 14:00 IST converts to absolute minute
1065463710; with `now` equal to exactly that instant the request succeeds
instead of returning the past-slot outcome, because the handler uses a
strict `<` comparison. -/
theorem C6_counterexample :
    utcInstant ⟨2026, 10, 16⟩ ⟨14, 0⟩ = 1065463710 ∧
    (bookGame [⟨1, "Basketball", 10, 60⟩] [] "u" 1
      (some "2026-10-16") (some "14:00") 1065463710 true).result = .success := by
  decide

/-- C6 amended: the civil (date, time) is converted in the fixed UTC+05:30
zone to an absolute instant, and a parsed, slot-valid request is rejected
with the past-slot outcome exactly when that instant is strictly earlier
than the current absolute time; an instant equal to now is accepted. -/
theorem C6_past_check_strict (games : List Game) (bookings : List Booking)
    (userId : String) (gameId : Nat) (dateField timeField : Option String)
    (now : Int) (emailOk : Bool) (g0 : Game) (ds ts : String) (d : Date) (t : Time)
    (hg : games.find? (fun g => g.id == gameId) = some g0)
    (hdf : dateField = some ds) (htf : timeField = some ts)
    (hds : ds ≠ "") (hts : ts ≠ "")
    (hpd : parseDate ds = some d) (hpt : parseTime ts = some t)
    (hmem : t ∈ validSlots (weekday d)) :
    ((bookGame games bookings userId gameId dateField timeField now emailOk).result =
        .pastSlot ↔ utcInstant d t < now) ∧
    utcInstant d t =
      (toordinal d : Int) * 1440 + (t.hour : Int) * 60 + (t.minute : Int) - 330 := by
  rw [bookGame_parsed hg hdf htf hds hts hpd hpt, if_neg (not_not_intro hmem)]
  refine ⟨?_, rfl⟩
  by_cases hp : utcInstant d t < now
  · rw [if_pos hp]
    simp [hp]
  · rw [if_neg hp]
    constructor
    · intro hres
      exfalso
      revert hres
      split <;> simp
    · intro hlt
      exact absurd hlt hp

/-- Witness for C6: with `now` one minute past the Friday 14:00 IST instant,
the request returns the past-slot outcome. -/
theorem C6_witness :
    (bookGame [⟨1, "Basketball", 10, 60⟩] [] "c6w" 1
      (some "2026-10-16") (some "14:00") 1065463711 true).result = .pastSlot :=
  (C6_past_check_strict [⟨1, "Basketball", 10, 60⟩] [] "c6w" 1
    (some "2026-10-16") (some "14:00") 1065463711 true ⟨1, "Basketball", 10, 60⟩
    "2026-10-16" "14:00" ⟨2026, 10, 16⟩ ⟨14, 0⟩
    rfl rfl rfl (by decide) (by decide) (by decide) (by decide) (by decide)).1.mpr
    (by decide)

/-- C7: booking success is independent of notification delivery.  The
outcome and the resulting table do not depend on whether the SMTP send
succeeds, and the event trace is either empty (no commit, no email, on every
failure) or exactly commit followed by the email attempt (so the
notification is emitted only after the reservation is committed, and a
failed send neither rolls back the new row nor changes the result). -/
theorem C7_notification_decoupled :
    ∀ (games : List Game) (bookings : List Booking) (userId : String)
      (gameId : Nat) (dateField timeField : Option String) (now : Int)
      (emailOk : Bool),
      ((bookGame games bookings userId gameId dateField timeField now emailOk).result =
          (bookGame games bookings userId gameId dateField timeField now true).result ∧
        (bookGame games bookings userId gameId dateField timeField now emailOk).bookings =
          (bookGame games bookings userId gameId dateField timeField now true).bookings) ∧
      (((bookGame games bookings userId gameId dateField timeField now emailOk).events = [] ∧
          (bookGame games bookings userId gameId dateField timeField now emailOk).result ≠
            .success) ∨
        ((bookGame games bookings userId gameId dateField timeField now emailOk).events =
            [.commit, .emailAttempt emailOk] ∧
          (bookGame games bookings userId gameId dateField timeField now emailOk).result =
            .success ∧
          ∃ nb,
            (bookGame games bookings userId gameId dateField timeField now
              emailOk).bookings = nb :: bookings)) := by
  intro games bookings userId gameId dateField timeField now emailOk
  unfold bookGame
  repeat' split
  all_goals simp

/-- C8: every request either succeeds and writes exactly one new row for the
requested user and game on top of the unchanged table, or fails and leaves
the table exactly as it was — no partial state. -/
theorem C8_atomic_store_change :
    ∀ (games : List Game) (bookings : List Booking) (userId : String)
      (gameId : Nat) (dateField timeField : Option String) (now : Int)
      (emailOk : Bool),
      ((bookGame games bookings userId gameId dateField timeField now emailOk).result =
          .success ∧
        ∃ nb,
          (bookGame games bookings userId gameId dateField timeField now
            emailOk).bookings = nb :: bookings ∧
          nb.user_id = userId ∧ nb.game_id = gameId) ∨
      ((bookGame games bookings userId gameId dateField timeField now emailOk).result ≠
          .success ∧
        (bookGame games bookings userId gameId dateField timeField now emailOk).bookings =
          bookings) := by
  intro games bookings userId gameId dateField timeField now emailOk
  unfold bookGame
  repeat' split
  all_goals simp

/-- The back-off sleep trace `2 ^ j, 2 ^ (j+1), ...` of length `n`. -/
def backoffSleeps (j : Nat) : Nat → List Nat
  | 0 => []
  | n + 1 => 2 ^ j :: backoffSleeps (j + 1) n

/-- `backoffSleeps` from attempt `j` is the range map of powers of two
shifted by `j`. -/
theorem backoffSleeps_eq_range_map :
    ∀ (n j : Nat), backoffSleeps j n = (List.range n).map (fun i => 2 ^ (j + i)) := by
  intro n
  induction n with
  | zero => intro j; rfl
  | succ m ih =>
    intro j
    rw [backoffSleeps, ih (j + 1), List.range_succ_eq_map, List.map_cons, List.map_map]
    refine List.cons_eq_cons.mpr ⟨by simp, ?_⟩
    apply List.map_congr_left
    intro i _
    simp only [Function.comp_apply]
    congr 1
    omega

/-- One unfolding step of `dbRetryAux` on a positive remaining count. -/
theorem dbRetryAux_succ {α : Type} (op : Nat → Except DbErr α) (j r : Nat) :
    dbRetryAux op j (r + 1) =
      match op j with
      | .ok a => (.ok (some a), [])
      | .error .operational =>
        if r = 0 then (.error .operational, [])
        else ((dbRetryAux op (j + 1) r).1, 2 ^ j :: (dbRetryAux op (j + 1) r).2)
      | .error e => (.error e, []) := rfl

/-- When the first `itr` attempts fail with connectivity errors and attempt
`itr` fails with a non-connectivity error, the loop stops at that attempt
and re-raises it, having slept only for the connectivity retries. -/
theorem dbRetryAux_integrity_stop {α : Type} (op : Nat → Except DbErr α) :
    ∀ (itr j r : Nat), itr < r →
    (∀ k, k < itr → op (j + k) = .error .operational) →
    op (j + itr) = .error .integrity →
    dbRetryAux op j r = (.error .integrity, backoffSleeps j itr) := by
  intro itr
  induction itr with
  | zero =>
    intro j r hr hops hstop
    obtain ⟨r0, rfl⟩ : ∃ r0, r = r0 + 1 := ⟨r - 1, by omega⟩
    simp only [Nat.add_zero] at hstop
    rw [dbRetryAux_succ, hstop]
    rfl
  | succ m ih =>
    intro j r hr hops hstop
    obtain ⟨r0, rfl⟩ : ∃ r0, r = r0 + 1 := ⟨r - 1, by omega⟩
    have h0 : op j = .error .operational := by
      have := hops 0 (by omega)
      simpa using this
    have hr0 : r0 ≠ 0 := by omega
    have hrest := ih (j + 1) r0 (by omega)
      (fun k hk => by
        have := hops (k + 1) (by omega)
        rwa [show j + (k + 1) = j + 1 + k by omega] at this)
      (by rwa [show j + (m + 1) = j + 1 + m by omega] at hstop)
    rw [dbRetryAux_succ, h0, if_neg hr0, hrest]
    rfl

/-- When every attempt fails with a connectivity error, the loop runs all
`n + 1` attempts, sleeping `2 ^ attempt` between consecutive ones, and
re-raises the connectivity error after the last. -/
theorem dbRetryAux_all_operational {α : Type} (op : Nat → Except DbErr α) :
    ∀ (n j : Nat), (∀ k, k < n + 1 → op (j + k) = .error .operational) →
    dbRetryAux op j (n + 1) = (.error .operational, backoffSleeps j n) := by
  intro n
  induction n with
  | zero =>
    intro j hops
    have h0 : op j = .error .operational := by simpa using hops 0 (by omega)
    rw [dbRetryAux_succ, h0]
    rfl
  | succ m ih =>
    intro j hops
    have h0 : op j = .error .operational := by simpa using hops 0 (by omega)
    have hrest := ih (j + 1)
      (fun k hk => by
        have := hops (k + 1) (by omega)
        rwa [show j + (k + 1) = j + 1 + k by omega] at this)
    rw [dbRetryAux_succ, h0, if_neg (Nat.succ_ne_zero m), hrest]
    rfl

/-- C9: the retry helper retries only connectivity (`OperationalError`)
failures, with a bounded number of attempts and exponential back-off
(`2 ^ attempt` between consecutive attempts), re-raising the connectivity
error once attempts exhaust; any other database error — in particular the
integrity error a uniqueness violation raises — is never caught by this
path and propagates the first time it occurs, with no further attempt and
no further sleep. -/
theorem C9_retry_policy :
    (∀ (α : Type) (op : Nat → Except DbErr α) (n itr : Nat), itr < n →
      (∀ k, k < itr → op k = .error .operational) →
      op itr = .error .integrity →
      dbRetryOperation op n =
        (.error .integrity, (List.range itr).map (fun i => 2 ^ i))) ∧
    (∀ (α : Type) (op : Nat → Except DbErr α) (n : Nat),
      (∀ k, k ≤ n → op k = .error .operational) →
      dbRetryOperation op (n + 1) =
        (.error .operational, (List.range n).map (fun i => 2 ^ i))) ∧
    (∀ (α : Type) (op : Nat → Except DbErr α) (n : Nat) (a : α),
      op 0 = .ok a →
      dbRetryOperation op (n + 1) = (.ok (some a), [])) := by
  refine ⟨?_, ?_, ?_⟩
  · intro α op n itr hlt hops hstop
    have h := dbRetryAux_integrity_stop op itr 0 n hlt (fun k hk => by simpa using hops k hk)
      (by simpa using hstop)
    rw [dbRetryOperation, h, backoffSleeps_eq_range_map]
    simp
  · intro α op n hops
    have h := dbRetryAux_all_operational op n 0 (fun k hk => by simpa using hops k (by omega))
    rw [dbRetryOperation, h, backoffSleeps_eq_range_map]
    simp
  · intro α op n a h0
    rw [dbRetryOperation, dbRetryAux_succ, h0]

/-- Witness for C9: an immediate integrity failure propagates with no sleep;
three consecutive connectivity failures exhaust three attempts with sleeps
1 and 2 seconds; an immediate success returns at once. -/
theorem C9_witness :
    dbRetryOperation (fun _ => (Except.error DbErr.integrity : Except DbErr Nat)) 3 =
      (.error .integrity, []) ∧
    dbRetryOperation (fun _ => (Except.error DbErr.operational : Except DbErr Nat)) 3 =
      (.error .operational, [1, 2]) ∧
    dbRetryOperation (fun _ => (Except.ok 7 : Except DbErr Nat)) 3 = (.ok (some 7), []) := by
  refine ⟨?_, ?_, ?_⟩
  · rw [C9_retry_policy.1 Nat (fun _ => .error .integrity) 3 0 (by omega)
      (fun k hk => absurd hk (by omega)) rfl]
    norm_num
  · rw [C9_retry_policy.2.1 Nat (fun _ => .error .operational) 2 (fun k _ => rfl)]
    norm_num [List.range_succ]
  · exact C9_retry_policy.2.2 Nat (fun _ => .ok 7) 2 7 rfl

/-- C5 (against the spec-modelled Ledger, since src/ has no cancel
operation and no status column): cancelling a found Confirmed reservation
succeeds for the owning user or an administrative actor when the start
instant is not yet past, marking the row Cancelled and keeping every other
row, after which a create for the same (resource, instant) succeeds
provided the cancelled row was the only live one there; any other actor
gets Forbidden; an authorized cancel of an already-elapsed reservation
gets PastBooking, and an error leaves the ledger unchanged. -/
theorem C5_cancel_lifecycle :
    ∀ (ledger : List Reservation) (rid : Nat) (actor : Actor) (now : Int)
      (r : Reservation),
      ledger.find? (fun q => q.id == rid) = some r →
      r.status = .confirmed →
      ((¬(actor.id = r.user_id ∨ actor.admin = true) →
          ledgerCancel ledger rid actor now = .error .forbidden) ∧
        ((actor.id = r.user_id ∨ actor.admin = true) → r.start_instant < now →
          ledgerCancel ledger rid actor now = .error .pastBooking) ∧
        ((actor.id = r.user_id ∨ actor.admin = true) → ¬(r.start_instant < now) →
          ∃ ledger2,
            ledgerCancel ledger rid actor now = .ok ledger2 ∧
            (∀ q ∈ ledger2, q.id = rid → q.status = .cancelled) ∧
            (∀ q ∈ ledger, q.id ≠ rid → q ∈ ledger2) ∧
            ((∀ q ∈ ledger, q.status = .confirmed → q.resource_id = r.resource_id →
                q.start_instant = r.start_instant → q.id = rid) →
              ∀ u2, ledgerCreate ledger2 r.resource_id u2 r.start_instant ≠ none))) := by
  intro ledger rid actor now r hfind _hconf
  refine ⟨?_, ?_, ?_⟩
  · intro hno
    simp only [ledgerCancel, hfind]
    rw [if_pos hno]
  · intro hyes hpast
    simp only [ledgerCancel, hfind]
    rw [if_neg (not_not_intro hyes), if_pos hpast]
  · intro hyes hfut
    refine ⟨ledger.map (fun q =>
      if q.id = rid then ⟨q.id, q.resource_id, q.user_id, q.start_instant, .cancelled⟩
      else q), ?_, ?_, ?_, ?_⟩
    · simp only [ledgerCancel, hfind]
      rw [if_neg (not_not_intro hyes), if_neg hfut]
    · intro q hq hqid
      obtain ⟨p, hp, rfl⟩ := List.mem_map.mp hq
      by_cases hpid : p.id = rid
      · simp [hpid]
      · rw [if_neg hpid] at hqid
        exact absurd hqid hpid
    · intro q hq hqid
      exact List.mem_map.mpr ⟨q, hq, by rw [if_neg hqid]⟩
    · intro huniq u2
      have hnone : ¬((ledger.map (fun q =>
          if q.id = rid then ⟨q.id, q.resource_id, q.user_id, q.start_instant, .cancelled⟩
          else q)).any (fun q =>
            q.resource_id == r.resource_id && q.start_instant == r.start_instant &&
              q.status == ResStatus.confirmed) = true) := by
        intro hany
        obtain ⟨q, hq, hpred⟩ := List.any_eq_true.mp hany
        obtain ⟨p, hp, rfl⟩ := List.mem_map.mp hq
        by_cases hpid : p.id = rid
        · simp [hpid] at hpred
        · rw [if_neg hpid] at hpred
          simp only [Bool.and_eq_true, beq_iff_eq] at hpred
          exact hpid (huniq p hp hpred.2 hpred.1.1 hpred.1.2)
      rw [ledgerCreate, if_neg hnone]
      simp

/-- Witness for C5: in a one-row ledger, the owning user cancels their
future Confirmed reservation, the row becomes Cancelled, and a new create
for the same resource and instant then succeeds. -/
theorem C5_witness :
    ledgerCancel [⟨1, 5, "x", 100, ResStatus.confirmed⟩] 1 ⟨"x", false⟩ 50 =
      .ok [⟨1, 5, "x", 100, ResStatus.cancelled⟩] ∧
    ledgerCreate [⟨1, 5, "x", 100, ResStatus.cancelled⟩] 5 "y" 100 ≠ none := by
  have hcal : ledgerCancel [⟨1, 5, "x", 100, ResStatus.confirmed⟩] 1 ⟨"x", false⟩ 50 =
      .ok [⟨1, 5, "x", 100, ResStatus.cancelled⟩] := rfl
  obtain ⟨l2, hok, _hcanc, _hkeep, hfree⟩ :=
    (C5_cancel_lifecycle [⟨1, 5, "x", 100, ResStatus.confirmed⟩] 1 ⟨"x", false⟩ 50
      ⟨1, 5, "x", 100, ResStatus.confirmed⟩ rfl rfl).2.2 (Or.inl rfl) (by decide)
  have hl2 : l2 = [⟨1, 5, "x", 100, ResStatus.cancelled⟩] := by
    rw [hcal] at hok
    exact (Except.ok.inj hok).symm
  refine ⟨hcal, ?_⟩
  have hcr := hfree (by decide) "y"
  rwa [hl2] at hcr

end Sport
